import Mathlib

/-!
Shallow embedding of `src/quant/strategy/turtle_strategy.py` (class
`TurtleStrategy`, method `handle`) and verification of the spec's claims
about it.

Python floats are modelled as `Option ℚ`: `none` is IEEE NaN, `some q` a
finite value.  Arithmetic propagates NaN; every comparison involving NaN
is `false`, exactly as in IEEE-754 (and hence Python) ordered comparisons.
The external data handler and portfolio are read-only query records, as
the spec places them out of scope.  The generator body is a total
function: each loop iteration either contributes no element (pre-filter
`continue`, fill-count guard `continue`, or a caught `ValueError` /
`KeyError`), yields the literal `None`, or yields one `Signal`.
-/

namespace Turtle

/-- A Python float: `none` is NaN, `some q` a finite value. -/
abbrev PFloat : Type := Option ℚ

/-- IEEE NaN. -/
def PFloat.nan : PFloat := none

/-- `math.isnan`. -/
def PFloat.isnan : PFloat → Bool
  | none => true
  | some _ => false

/-- Float addition; NaN propagates. -/
def PFloat.add : PFloat → PFloat → PFloat
  | some a, some b => some (a + b)
  | _, _ => none

/-- Float subtraction; NaN propagates. -/
def PFloat.sub : PFloat → PFloat → PFloat
  | some a, some b => some (a - b)
  | _, _ => none

/-- Float multiplication; NaN propagates. -/
def PFloat.mul : PFloat → PFloat → PFloat
  | some a, some b => some (a * b)
  | _, _ => none

/-- Float `<`; any comparison with NaN is false. -/
def PFloat.lt : PFloat → PFloat → Bool
  | some a, some b => decide (a < b)
  | _, _ => false

/-- Float `<=`; any comparison with NaN is false. -/
def PFloat.le : PFloat → PFloat → Bool
  | some a, some b => decide (a ≤ b)
  | _, _ => false

/-- Float `>`. -/
def PFloat.gt (a b : PFloat) : Bool := PFloat.lt b a

/-- Float `>=`. -/
def PFloat.ge (a b : PFloat) : Bool := PFloat.le b a

/-- The bar fields queried by the strategy (`KField`). -/
inductive KField : Type
  | close
  | high
  | low
  | atr
deriving DecidableEq

/-- Fill direction (`FillEvent.BUY` / `FillEvent.SELL`). -/
inductive Direction : Type
  | buy
  | sell
deriving DecidableEq

/-- Signal kinds (`Signal.OpenLong` etc.). -/
inductive SignalType : Type
  | OpenLong
  | OpenShort
  | Extend
  | Close
deriving DecidableEq

/-- An emitted `Signal`, with its `attr` dictionary flattened into the
four keys the strategy writes (`index`, `atr`, `rule_id`, `reason`). -/
structure Signal (Sym : Type) : Type where
  symbol : Sym
  signal_type : SignalType
  confidence : ℚ
  attr_index : ℤ
  attr_atr : PFloat
  attr_rule_id : String
  attr_reason : String
deriving DecidableEq

/-- A recorded fill (`FillEvent`).  The `attr` dictionary keys the
strategy reads are modelled as optional fields: an absent key raises
`KeyError` at the point of access. -/
structure FillEvent : Type where
  direction : Direction
  fill_price : PFloat
  attr_atr : Option PFloat
  attr_index : Option ℤ
deriving DecidableEq

/-- The data handler queries the strategy makes (`SQLiteDataHandler`),
out of scope per the spec and therefore abstract.  `get_curr_bar_value`
returns `none` on a missing key (Python `KeyError`); `hist_max s f n`
models `get_hist_bars_values(s, f, n).max()` (outer `none` = lookup
failure, inner value possibly NaN), likewise `hist_min` with `.min()`. -/
structure DataHandler (Sym : Type) : Type where
  plate_symbols : List Sym
  benchmark : Sym
  hist_index : ℤ
  get_curr_bar_value : Sym → KField → Option PFloat
  hist_max : Sym → KField → ℤ → Option PFloat
  hist_min : Sym → KField → ℤ → Option PFloat
  can_short : Sym → Bool

/-- The portfolio queries the strategy makes (read-only view). -/
structure PortfolioView (Sym : Type) : Type where
  has_position : Sym → Bool
  get_first_fill_event : Sym → FillEvent
  get_last_fill_event : Sym → FillEvent
  get_fill_events_len : Sym → ℕ

/-- Python exceptions caught by the loop body's `except` clauses. -/
inductive PyErr : Type
  | valueError (msg : String)
  | keyError (msg : String)
deriving DecidableEq

/-- Builder matching each `yield Signal(symbol=..., signal_type=...,
confidence=1.0, attr={"index": hist_index + 1, "atr": current_atr,
"rule_id": "TurtleStrategy", "reason": ...})` in the source. -/
def mkSignal {Sym : Type} (dh : DataHandler Sym) (symbol : Sym)
    (t : SignalType) (current_atr : PFloat) (reason : String) : Signal Sym :=
  { symbol := symbol
  , signal_type := t
  , confidence := 1
  , attr_index := dh.hist_index + 1
  , attr_atr := current_atr
  , attr_rule_id := "TurtleStrategy"
  , attr_reason := reason }

/-- The eight canonical reason strings, one per emitting branch, copied
verbatim from the source. -/
def reasons : List String :=
  [ "Extend: increase more the 0.5 * atr since last buy"
  , "Close: go down 2 * atr relative with the max during holding"
  , "Close: go lower then lowest10"
  , "Extend: go down 2 * atr since last sell"
  , "Close: go up 2 * atr relative with the min during holding"
  , "Close: go upper then highest10"
  , "OpenLong: go up than highest20"
  , "OpenShort: go down than lowest20" ]

/-- The `try:` block of one loop iteration of `TurtleStrategy.handle`.
Result `.ok none` is the fill-count guard's `continue`; `.ok (some x)`
is `yield x` (where `x = none` is Python's `yield None`); `.error e`
is a raised `ValueError` / `KeyError`. -/
def handleSymbolBody {Sym : Type} (dh : DataHandler Sym)
    (port : PortfolioView Sym) (symbol : Sym) :
    Except PyErr (Option (Option (Signal Sym))) :=
  match dh.get_curr_bar_value symbol KField.atr with
  | none => .error (.keyError "atr")
  | some current_atr =>
  match dh.get_curr_bar_value symbol KField.close with
  | none => .error (.keyError "close")
  | some current_price =>
  match dh.hist_max symbol KField.high 10 with
  | none => .error (.keyError "high")
  | some highest10 =>
  match dh.hist_min symbol KField.low 10 with
  | none => .error (.keyError "low")
  | some lowest10 =>
  match dh.hist_max symbol KField.high 20 with
  | none => .error (.keyError "high")
  | some highest20 =>
  match dh.hist_min symbol KField.low 20 with
  | none => .error (.keyError "low")
  | some lowest20 =>
  if highest10.isnan || lowest10.isnan || highest20.isnan || lowest20.isnan then
    .error (.valueError "get_hist_bars_values NaN")
  else if port.has_position symbol then
    let fist_fill := port.get_first_fill_event symbol
    let last_fill := port.get_last_fill_event symbol
    let hist_fill_events_len := port.get_fill_events_len symbol
    if hist_fill_events_len > 4 then
      .ok none
    else
      match fist_fill.direction with
      | Direction.buy =>
        match fist_fill.attr_atr with
        | none => .error (.keyError "atr")
        | some fatr =>
        if PFloat.le (PFloat.add (PFloat.mul (some (1/2 : ℚ)) fatr) last_fill.fill_price)
            current_price then
          .ok (some (some (mkSignal dh symbol SignalType.Extend current_atr
            "Extend: increase more the 0.5 * atr since last buy")))
        else
          match fist_fill.attr_index with
          | none => .error (.keyError "index")
          | some fidx =>
          match dh.hist_max symbol KField.high (dh.hist_index - fidx + 1) with
          | none => .error (.keyError "high")
          | some hold_max =>
          if PFloat.gt (PFloat.sub hold_max (PFloat.mul (some (2 : ℚ)) fatr)) current_price then
            .ok (some (some (mkSignal dh symbol SignalType.Close current_atr
              "Close: go down 2 * atr relative with the max during holding")))
          else if PFloat.gt lowest10 current_price then
            .ok (some (some (mkSignal dh symbol SignalType.Close current_atr
              "Close: go lower then lowest10")))
          else
            .ok (some none)
      | Direction.sell =>
        match fist_fill.attr_atr with
        | none => .error (.keyError "atr")
        | some fatr =>
        if PFloat.ge (PFloat.sub last_fill.fill_price (PFloat.mul (some (1/2 : ℚ)) fatr))
            current_price then
          .ok (some (some (mkSignal dh symbol SignalType.Extend current_atr
            "Extend: go down 2 * atr since last sell")))
        else
          match fist_fill.attr_index with
          | none => .error (.keyError "index")
          | some fidx =>
          match dh.hist_min symbol KField.low (dh.hist_index - fidx + 1) with
          | none => .error (.keyError "low")
          | some hold_min =>
          if PFloat.lt (PFloat.add hold_min (PFloat.mul (some (2 : ℚ)) fatr)) current_price then
            .ok (some (some (mkSignal dh symbol SignalType.Close current_atr
              "Close: go up 2 * atr relative with the min during holding")))
          else if PFloat.lt highest10 current_price then
            .ok (some (some (mkSignal dh symbol SignalType.Close current_atr
              "Close: go upper then highest10")))
          else
            .ok (some none)
  else
    if PFloat.gt current_price highest20 then
      .ok (some (some (mkSignal dh symbol SignalType.OpenLong current_atr
        "OpenLong: go up than highest20")))
    else if PFloat.lt current_price lowest20 && dh.can_short symbol then
      .ok (some (some (mkSignal dh symbol SignalType.OpenShort current_atr
        "OpenShort: go down than lowest20")))
    else
      .ok (some none)

/-- The `except ValueError` / `except KeyError` clauses: both swallow
the error (log and fall through to the next symbol), so an iteration
whose body raised contributes no element. -/
def runBody {Sym : Type} :
    Except PyErr (Option (Option (Signal Sym))) → Option (Option (Signal Sym))
  | .ok r => r
  | .error _ => none

/-- One full loop iteration of `TurtleStrategy.handle` for one symbol:
the pre-filter `continue`, the `try:` body, and the two `except`
clauses.  `none` means no element is contributed to the generated
sequence; `some x` means `x` is yielded. -/
def handleSymbol {Sym : Type} [DecidableEq Sym] (dh : DataHandler Sym)
    (port : PortfolioView Sym) (symbol : Sym) : Option (Option (Signal Sym)) :=
  if symbol ∈ dh.plate_symbols ∨ symbol = dh.benchmark then
    none
  else
    runBody (handleSymbolBody dh port symbol)

/-- `TurtleStrategy.handle`: the full generator, as the list of elements
it yields while iterating over `symbol_list`. -/
def handle {Sym : Type} [DecidableEq Sym] (dh : DataHandler Sym)
    (port : PortfolioView Sym) (symbol_list : List Sym) :
    List (Option (Signal Sym)) :=
  symbol_list.filterMap (handleSymbol dh port)

/-- The kind of signal one iteration emits, if any: `some t` when a
signal of kind `t` is yielded, `none` when the iteration yields the
literal `None` or contributes no element. -/
def emittedType {Sym : Type} : Option (Option (Signal Sym)) → Option SignalType
  | some (some sig) => some sig.signal_type
  | _ => none

/-! Concrete environment used by the witnesses: a small universe of
`String` symbols covering each code path. -/

/-- Current close price per witness symbol. -/
def priceW (s : String) : ℚ :=
  if s = "X" then 101
  else if s = "LG" then 53
  else if s = "L2" then 40
  else if s = "S2" then 80
  else if s = "SH" then 51
  else if s = "AN" then 101
  else 95

/-- Witness data handler.  Symbol "KE" is missing its fields (lookup
failure); "AN" has a NaN current ATR; "QN" has NaN rolling extrema.
`hist_index = 100`; the hold window for a first fill at bar 86 is
`100 - 86 + 1 = 15`. -/
def dhW : DataHandler String :=
  { plate_symbols := ["PL"]
  , benchmark := "BM"
  , hist_index := 100
  , get_curr_bar_value := fun s f =>
      if s = "KE" then none
      else
        match f with
        | KField.atr => if s = "AN" then some PFloat.nan else some (some 3)
        | KField.close => some (some (priceW s))
        | _ => none
  , hist_max := fun s _ n =>
      if s = "QN" then some PFloat.nan
      else if n = 10 then some (some 110)
      else if n = 20 then some (some 100)
      else if n = 15 then some (some 120)
      else none
  , hist_min := fun s _ n =>
      if s = "QN" then some PFloat.nan
      else if n = 10 then some (some 90)
      else if n = 20 then some (some 80)
      else if n = 15 then some (some 70)
      else none
  , can_short := fun _ => true }

/-- First fill of the witness long positions. -/
def firstFillBuy : FillEvent :=
  { direction := Direction.buy, fill_price := some 50
  , attr_atr := some (some 2), attr_index := some 86 }

/-- Last fill of the witness long positions. -/
def lastFillBuy : FillEvent :=
  { direction := Direction.buy, fill_price := some 52
  , attr_atr := some (some 2), attr_index := some 95 }

/-- First fill of the witness short positions. -/
def firstFillSell : FillEvent :=
  { direction := Direction.sell, fill_price := some 50
  , attr_atr := some (some 2), attr_index := some 86 }

/-- Last fill of the witness short positions. -/
def lastFillSell : FillEvent :=
  { direction := Direction.sell, fill_price := some 52
  , attr_atr := some (some 2), attr_index := some 95 }

/-- Witness portfolio: "LG", "L2", "GU" hold long positions, "SH", "S2"
short ones; "GU" has 5 recorded fills (over the guard), the others 2. -/
def pfW : PortfolioView String :=
  { has_position := fun s => s ∈ ["LG", "L2", "SH", "S2", "GU"]
  , get_first_fill_event := fun s =>
      if s ∈ ["SH", "S2"] then firstFillSell else firstFillBuy
  , get_last_fill_event := fun s =>
      if s ∈ ["SH", "S2"] then lastFillSell else lastFillBuy
  , get_fill_events_len := fun s => if s = "GU" then 5 else 2 }

/-! Reduction lemmas: closed forms of `handleSymbol` on each of the
code paths, under hypotheses naming the values returned by the external
queries. -/

/-- The pre-filter: a plate or benchmark symbol contributes nothing. -/
theorem handleSymbol_pre_eq {Sym : Type} [DecidableEq Sym]
    (dh : DataHandler Sym) (port : PortfolioView Sym) (s : Sym)
    (hpre : s ∈ dh.plate_symbols ∨ s = dh.benchmark) :
    handleSymbol dh port s = none := by
  simp [handleSymbol, hpre]

/-- Closed form on the flat (no open position) path. -/
theorem handleSymbol_flat_eq {Sym : Type} [DecidableEq Sym]
    (dh : DataHandler Sym) (port : PortfolioView Sym) (s : Sym)
    (a p h10 l10 h20 l20 : PFloat)
    (hpre : ¬ (s ∈ dh.plate_symbols ∨ s = dh.benchmark))
    (ha : dh.get_curr_bar_value s KField.atr = some a)
    (hp : dh.get_curr_bar_value s KField.close = some p)
    (hh10 : dh.hist_max s KField.high 10 = some h10)
    (hl10 : dh.hist_min s KField.low 10 = some l10)
    (hh20 : dh.hist_max s KField.high 20 = some h20)
    (hl20 : dh.hist_min s KField.low 20 = some l20)
    (hn1 : h10.isnan = false) (hn2 : l10.isnan = false)
    (hn3 : h20.isnan = false) (hn4 : l20.isnan = false)
    (hflat : port.has_position s = false) :
    handleSymbol dh port s =
      if PFloat.gt p h20 then
        some (some (mkSignal dh s SignalType.OpenLong a
          "OpenLong: go up than highest20"))
      else if PFloat.lt p l20 && dh.can_short s then
        some (some (mkSignal dh s SignalType.OpenShort a
          "OpenShort: go down than lowest20"))
      else
        some none := by
  rw [handleSymbol, if_neg hpre]
  rw [handleSymbolBody, ha, hp, hh10, hl10, hh20, hl20]
  simp only [hn1, hn2, hn3, hn4, Bool.or_self, Bool.or_false, Bool.false_or,
    Bool.false_eq_true, if_false, hflat, ite_false]
  simp only [apply_ite (@runBody Sym)]
  simp only [runBody]

/-- The fill-count guard: more than four fills contributes nothing. -/
theorem handleSymbol_guard_eq {Sym : Type} [DecidableEq Sym]
    (dh : DataHandler Sym) (port : PortfolioView Sym) (s : Sym)
    (a p h10 l10 h20 l20 : PFloat)
    (hpre : ¬ (s ∈ dh.plate_symbols ∨ s = dh.benchmark))
    (ha : dh.get_curr_bar_value s KField.atr = some a)
    (hp : dh.get_curr_bar_value s KField.close = some p)
    (hh10 : dh.hist_max s KField.high 10 = some h10)
    (hl10 : dh.hist_min s KField.low 10 = some l10)
    (hh20 : dh.hist_max s KField.high 20 = some h20)
    (hl20 : dh.hist_min s KField.low 20 = some l20)
    (hn1 : h10.isnan = false) (hn2 : l10.isnan = false)
    (hn3 : h20.isnan = false) (hn4 : l20.isnan = false)
    (hpos : port.has_position s = true)
    (hlen : port.get_fill_events_len s > 4) :
    handleSymbol dh port s = none := by
  rw [handleSymbol, if_neg hpre]
  rw [handleSymbolBody, ha, hp, hh10, hl10, hh20, hl20]
  simp only [hn1, hn2, hn3, hn4, Bool.or_self, Bool.or_false, Bool.false_or,
    Bool.false_eq_true, if_false, hpos, ite_true, if_pos hlen, runBody]

/-- Closed form on the long-management path (first fill is a Buy,
fill count within the guard). -/
theorem handleSymbol_long_eq {Sym : Type} [DecidableEq Sym]
    (dh : DataHandler Sym) (port : PortfolioView Sym) (s : Sym)
    (a p h10 l10 h20 l20 fatr hmax : PFloat) (fidx : ℤ)
    (hpre : ¬ (s ∈ dh.plate_symbols ∨ s = dh.benchmark))
    (ha : dh.get_curr_bar_value s KField.atr = some a)
    (hp : dh.get_curr_bar_value s KField.close = some p)
    (hh10 : dh.hist_max s KField.high 10 = some h10)
    (hl10 : dh.hist_min s KField.low 10 = some l10)
    (hh20 : dh.hist_max s KField.high 20 = some h20)
    (hl20 : dh.hist_min s KField.low 20 = some l20)
    (hn1 : h10.isnan = false) (hn2 : l10.isnan = false)
    (hn3 : h20.isnan = false) (hn4 : l20.isnan = false)
    (hpos : port.has_position s = true)
    (hlen : port.get_fill_events_len s ≤ 4)
    (hdir : (port.get_first_fill_event s).direction = Direction.buy)
    (hfatr : (port.get_first_fill_event s).attr_atr = some fatr)
    (hfidx : (port.get_first_fill_event s).attr_index = some fidx)
    (hhold : dh.hist_max s KField.high (dh.hist_index - fidx + 1) = some hmax) :
    handleSymbol dh port s =
      if PFloat.le (PFloat.add (PFloat.mul (some (1/2 : ℚ)) fatr)
          (port.get_last_fill_event s).fill_price) p then
        some (some (mkSignal dh s SignalType.Extend a
          "Extend: increase more the 0.5 * atr since last buy"))
      else if PFloat.gt (PFloat.sub hmax (PFloat.mul (some (2 : ℚ)) fatr)) p then
        some (some (mkSignal dh s SignalType.Close a
          "Close: go down 2 * atr relative with the max during holding"))
      else if PFloat.gt l10 p then
        some (some (mkSignal dh s SignalType.Close a
          "Close: go lower then lowest10"))
      else
        some none := by
  have hlen' : ¬ port.get_fill_events_len s > 4 := by omega
  rw [handleSymbol, if_neg hpre]
  rw [handleSymbolBody, ha, hp, hh10, hl10, hh20, hl20]
  simp only [hn1, hn2, hn3, hn4, Bool.or_self, Bool.or_false, Bool.false_or,
    Bool.false_eq_true, if_false, hpos, ite_true, if_neg hlen',
    hdir, hfatr, hfidx, hhold]
  simp only [apply_ite (@runBody Sym)]
  simp only [runBody]

/-- Closed form on the short-management path (first fill is a Sell,
fill count within the guard). -/
theorem handleSymbol_short_eq {Sym : Type} [DecidableEq Sym]
    (dh : DataHandler Sym) (port : PortfolioView Sym) (s : Sym)
    (a p h10 l10 h20 l20 fatr hmin : PFloat) (fidx : ℤ)
    (hpre : ¬ (s ∈ dh.plate_symbols ∨ s = dh.benchmark))
    (ha : dh.get_curr_bar_value s KField.atr = some a)
    (hp : dh.get_curr_bar_value s KField.close = some p)
    (hh10 : dh.hist_max s KField.high 10 = some h10)
    (hl10 : dh.hist_min s KField.low 10 = some l10)
    (hh20 : dh.hist_max s KField.high 20 = some h20)
    (hl20 : dh.hist_min s KField.low 20 = some l20)
    (hn1 : h10.isnan = false) (hn2 : l10.isnan = false)
    (hn3 : h20.isnan = false) (hn4 : l20.isnan = false)
    (hpos : port.has_position s = true)
    (hlen : port.get_fill_events_len s ≤ 4)
    (hdir : (port.get_first_fill_event s).direction = Direction.sell)
    (hfatr : (port.get_first_fill_event s).attr_atr = some fatr)
    (hfidx : (port.get_first_fill_event s).attr_index = some fidx)
    (hhold : dh.hist_min s KField.low (dh.hist_index - fidx + 1) = some hmin) :
    handleSymbol dh port s =
      if PFloat.ge (PFloat.sub (port.get_last_fill_event s).fill_price
          (PFloat.mul (some (1/2 : ℚ)) fatr)) p then
        some (some (mkSignal dh s SignalType.Extend a
          "Extend: go down 2 * atr since last sell"))
      else if PFloat.lt (PFloat.add hmin (PFloat.mul (some (2 : ℚ)) fatr)) p then
        some (some (mkSignal dh s SignalType.Close a
          "Close: go up 2 * atr relative with the min during holding"))
      else if PFloat.lt h10 p then
        some (some (mkSignal dh s SignalType.Close a
          "Close: go upper then highest10"))
      else
        some none := by
  have hlen' : ¬ port.get_fill_events_len s > 4 := by omega
  rw [handleSymbol, if_neg hpre]
  rw [handleSymbolBody, ha, hp, hh10, hl10, hh20, hl20]
  simp only [hn1, hn2, hn3, hn4, Bool.or_self, Bool.or_false, Bool.false_or,
    Bool.false_eq_true, if_false, hpos, ite_true, if_neg hlen',
    hdir, hfatr, hfidx, hhold]
  simp only [apply_ite (@runBody Sym)]
  simp only [runBody]

/-- `x < x` is false for every float, including NaN. -/
theorem PFloat.lt_irrefl (x : PFloat) : PFloat.lt x x = false := by
  cases x <;> simp [PFloat.lt]

/-- NaN in any of the four rolling extrema makes the body raise
`ValueError`, which the loop catches: the symbol contributes nothing
and the iteration over later symbols is unaffected. -/
theorem handleSymbol_nan_skip {Sym : Type} [DecidableEq Sym]
    (dh : DataHandler Sym) (port : PortfolioView Sym) (s : Sym)
    (a p h10 l10 h20 l20 : PFloat)
    (ha : dh.get_curr_bar_value s KField.atr = some a)
    (hp : dh.get_curr_bar_value s KField.close = some p)
    (hh10 : dh.hist_max s KField.high 10 = some h10)
    (hl10 : dh.hist_min s KField.low 10 = some l10)
    (hh20 : dh.hist_max s KField.high 20 = some h20)
    (hl20 : dh.hist_min s KField.low 20 = some l20)
    (hnan : h10.isnan = true ∨ l10.isnan = true ∨
      h20.isnan = true ∨ l20.isnan = true) :
    handleSymbol dh port s = none ∧
      ∀ xs ys : List Sym,
        handle dh port (xs ++ s :: ys) = handle dh port xs ++ handle dh port ys := by
  have h1 : handleSymbol dh port s = none := by
    by_cases hpre : s ∈ dh.plate_symbols ∨ s = dh.benchmark
    · rw [handleSymbol, if_pos hpre]
    · rw [handleSymbol, if_neg hpre]
      rw [handleSymbolBody, ha, hp, hh10, hl10, hh20, hl20]
      rcases hnan with hn | hn | hn | hn <;>
        simp [hn, runBody]
  refine ⟨h1, fun xs ys => ?_⟩
  simp [handle, List.filterMap_append, List.filterMap_cons, h1]

/-- C1: for a symbol that is not pre-filtered and has no open position,
`handle` emits `OpenLong` iff the current price is strictly above the
20-bar high; otherwise it emits `OpenShort` iff the current price is
strictly below the 20-bar low and the symbol is shortable; a price
exactly equal to the relevant 20-bar extreme emits no entry signal. -/
theorem c1_flat_entry {Sym : Type} [DecidableEq Sym]
    (dh : DataHandler Sym) (port : PortfolioView Sym) (s : Sym)
    (a p h10 l10 h20 l20 : PFloat)
    (hpre : ¬ (s ∈ dh.plate_symbols ∨ s = dh.benchmark))
    (ha : dh.get_curr_bar_value s KField.atr = some a)
    (hp : dh.get_curr_bar_value s KField.close = some p)
    (hh10 : dh.hist_max s KField.high 10 = some h10)
    (hl10 : dh.hist_min s KField.low 10 = some l10)
    (hh20 : dh.hist_max s KField.high 20 = some h20)
    (hl20 : dh.hist_min s KField.low 20 = some l20)
    (hn1 : h10.isnan = false) (hn2 : l10.isnan = false)
    (hn3 : h20.isnan = false) (hn4 : l20.isnan = false)
    (hflat : port.has_position s = false) :
    (emittedType (handleSymbol dh port s) = some SignalType.OpenLong ↔
        PFloat.gt p h20 = true)
    ∧ (PFloat.gt p h20 = false →
        (emittedType (handleSymbol dh port s) = some SignalType.OpenShort ↔
          (PFloat.lt p l20 = true ∧ dh.can_short s = true)))
    ∧ (p = h20 → emittedType (handleSymbol dh port s) ≠ some SignalType.OpenLong)
    ∧ (p = l20 → emittedType (handleSymbol dh port s) ≠ some SignalType.OpenShort) := by
  have heq := handleSymbol_flat_eq dh port s a p h10 l10 h20 l20 hpre ha hp
    hh10 hl10 hh20 hl20 hn1 hn2 hn3 hn4 hflat
  cases hgt : PFloat.gt p h20 with
  | true =>
    simp only [hgt, if_true] at heq
    refine ⟨?_, ?_, ?_, ?_⟩
    · simp [heq, emittedType, mkSignal]
    · intro hfalse; simp at hfalse
    · intro hpe; subst hpe
      rw [PFloat.gt, PFloat.lt_irrefl] at hgt; cases hgt
    · intro _; simp [heq, emittedType, mkSignal]
  | false =>
    simp only [hgt, Bool.false_eq_true, if_false] at heq
    cases hsh : (PFloat.lt p l20 && dh.can_short s) with
    | true =>
      simp only [hsh, if_true] at heq
      rw [Bool.and_eq_true] at hsh
      refine ⟨?_, ?_, ?_, ?_⟩
      · simp [heq, emittedType, mkSignal]
      · intro _; simp [heq, emittedType, mkSignal, hsh.1, hsh.2]
      · intro _; simp [heq, emittedType, mkSignal]
      · intro hpe; subst hpe
        rw [PFloat.lt_irrefl] at hsh; simp at hsh
    | false =>
      simp only [hsh, Bool.false_eq_true, if_false] at heq
      refine ⟨?_, ?_, ?_, ?_⟩
      · simp [heq, emittedType]
      · intro _
        constructor
        · intro habs; exact absurd habs (by simp [heq, emittedType])
        · rintro ⟨hl, hc⟩; rw [hl, hc] at hsh; cases hsh
      · intro _; simp [heq, emittedType]
      · intro _; simp [heq, emittedType]

/-- C2: for a symbol with an open long position (first fill is a Buy)
and at most four recorded fills, when the current price has reached the
last fill price plus half the first-fill volatility, `handle` emits
`Extend` and never `Close` — the close checks are not reached, so the
conclusion needs no hypothesis about the holding-period data. -/
theorem c2_long_extend_priority {Sym : Type} [DecidableEq Sym]
    (dh : DataHandler Sym) (port : PortfolioView Sym) (s : Sym)
    (a p h10 l10 h20 l20 fatr : PFloat)
    (hpre : ¬ (s ∈ dh.plate_symbols ∨ s = dh.benchmark))
    (ha : dh.get_curr_bar_value s KField.atr = some a)
    (hp : dh.get_curr_bar_value s KField.close = some p)
    (hh10 : dh.hist_max s KField.high 10 = some h10)
    (hl10 : dh.hist_min s KField.low 10 = some l10)
    (hh20 : dh.hist_max s KField.high 20 = some h20)
    (hl20 : dh.hist_min s KField.low 20 = some l20)
    (hn1 : h10.isnan = false) (hn2 : l10.isnan = false)
    (hn3 : h20.isnan = false) (hn4 : l20.isnan = false)
    (hpos : port.has_position s = true)
    (hlen : port.get_fill_events_len s ≤ 4)
    (hdir : (port.get_first_fill_event s).direction = Direction.buy)
    (hfatr : (port.get_first_fill_event s).attr_atr = some fatr)
    (hcond : PFloat.ge p (PFloat.add (PFloat.mul (some (1/2 : ℚ)) fatr)
      (port.get_last_fill_event s).fill_price) = true) :
    handleSymbol dh port s = some (some (mkSignal dh s SignalType.Extend a
        "Extend: increase more the 0.5 * atr since last buy"))
    ∧ emittedType (handleSymbol dh port s) ≠ some SignalType.Close := by
  have hlen' : ¬ port.get_fill_events_len s > 4 := by omega
  have hcond' : PFloat.le (PFloat.add (PFloat.mul (some (1/2 : ℚ)) fatr)
      (port.get_last_fill_event s).fill_price) p = true := hcond
  have h1 : handleSymbol dh port s = some (some (mkSignal dh s SignalType.Extend a
      "Extend: increase more the 0.5 * atr since last buy")) := by
    rw [handleSymbol, if_neg hpre]
    rw [handleSymbolBody, ha, hp, hh10, hl10, hh20, hl20]
    simp only [hn1, hn2, hn3, hn4, Bool.or_self, Bool.or_false, Bool.false_or,
      Bool.false_eq_true, if_false, hpos, ite_true, if_neg hlen',
      hdir, hfatr, hcond', if_true, runBody]
  refine ⟨h1, ?_⟩
  simp [h1, emittedType, mkSignal]

/-- C3: for a symbol with an open long position, at most four fills and
the extend condition false, the stop-loss close (holding-period maximum
high minus twice the first-fill volatility strictly above the current
price) is checked first, where the holding period is queried with
length `current bar index - first-fill bar index + 1`; only if it is
false is the 10-bar-low close checked, and if both are false the symbol
yields `None`. -/
theorem c3_long_close_order {Sym : Type} [DecidableEq Sym]
    (dh : DataHandler Sym) (port : PortfolioView Sym) (s : Sym)
    (a p h10 l10 h20 l20 fatr hmax : PFloat) (fidx : ℤ)
    (hpre : ¬ (s ∈ dh.plate_symbols ∨ s = dh.benchmark))
    (ha : dh.get_curr_bar_value s KField.atr = some a)
    (hp : dh.get_curr_bar_value s KField.close = some p)
    (hh10 : dh.hist_max s KField.high 10 = some h10)
    (hl10 : dh.hist_min s KField.low 10 = some l10)
    (hh20 : dh.hist_max s KField.high 20 = some h20)
    (hl20 : dh.hist_min s KField.low 20 = some l20)
    (hn1 : h10.isnan = false) (hn2 : l10.isnan = false)
    (hn3 : h20.isnan = false) (hn4 : l20.isnan = false)
    (hpos : port.has_position s = true)
    (hlen : port.get_fill_events_len s ≤ 4)
    (hdir : (port.get_first_fill_event s).direction = Direction.buy)
    (hfatr : (port.get_first_fill_event s).attr_atr = some fatr)
    (hfidx : (port.get_first_fill_event s).attr_index = some fidx)
    (hhold : dh.hist_max s KField.high (dh.hist_index - fidx + 1) = some hmax)
    (hext : PFloat.ge p (PFloat.add (PFloat.mul (some (1/2 : ℚ)) fatr)
      (port.get_last_fill_event s).fill_price) = false) :
    (PFloat.gt (PFloat.sub hmax (PFloat.mul (some (2 : ℚ)) fatr)) p = true →
      handleSymbol dh port s = some (some (mkSignal dh s SignalType.Close a
        "Close: go down 2 * atr relative with the max during holding")))
    ∧ (PFloat.gt (PFloat.sub hmax (PFloat.mul (some (2 : ℚ)) fatr)) p = false →
        (PFloat.gt l10 p = true →
          handleSymbol dh port s = some (some (mkSignal dh s SignalType.Close a
            "Close: go lower then lowest10")))
        ∧ (PFloat.gt l10 p = false → handleSymbol dh port s = some none)) := by
  have heq := handleSymbol_long_eq dh port s a p h10 l10 h20 l20 fatr hmax fidx
    hpre ha hp hh10 hl10 hh20 hl20 hn1 hn2 hn3 hn4 hpos hlen hdir hfatr hfidx hhold
  have hext' : PFloat.le (PFloat.add (PFloat.mul (some (1/2 : ℚ)) fatr)
      (port.get_last_fill_event s).fill_price) p = false := hext
  simp only [hext', Bool.false_eq_true, if_false] at heq
  refine ⟨fun hc => ?_, fun hc => ⟨fun hl => ?_, fun hl => ?_⟩⟩
  · simp only [hc, if_true] at heq; exact heq
  · simp only [hc, hl, Bool.false_eq_true, if_false, if_true] at heq; exact heq
  · simp only [hc, hl, Bool.false_eq_true, if_false] at heq; exact heq

/-- C4: for a symbol with an open short position (first fill is a Sell)
and at most four fills: `Extend` is emitted iff the current price is at
or below the last fill price minus half the first-fill volatility;
otherwise `Close` is emitted iff the holding-period minimum low plus
twice the first-fill volatility is strictly below the current price,
that check being evaluated before the 10-bar-high check, which emits
`Close` iff the current price is strictly above the 10-bar high; else
the symbol yields `None`. -/
theorem c4_short_management {Sym : Type} [DecidableEq Sym]
    (dh : DataHandler Sym) (port : PortfolioView Sym) (s : Sym)
    (a p h10 l10 h20 l20 fatr hmin : PFloat) (fidx : ℤ)
    (hpre : ¬ (s ∈ dh.plate_symbols ∨ s = dh.benchmark))
    (ha : dh.get_curr_bar_value s KField.atr = some a)
    (hp : dh.get_curr_bar_value s KField.close = some p)
    (hh10 : dh.hist_max s KField.high 10 = some h10)
    (hl10 : dh.hist_min s KField.low 10 = some l10)
    (hh20 : dh.hist_max s KField.high 20 = some h20)
    (hl20 : dh.hist_min s KField.low 20 = some l20)
    (hn1 : h10.isnan = false) (hn2 : l10.isnan = false)
    (hn3 : h20.isnan = false) (hn4 : l20.isnan = false)
    (hpos : port.has_position s = true)
    (hlen : port.get_fill_events_len s ≤ 4)
    (hdir : (port.get_first_fill_event s).direction = Direction.sell)
    (hfatr : (port.get_first_fill_event s).attr_atr = some fatr)
    (hfidx : (port.get_first_fill_event s).attr_index = some fidx)
    (hhold : dh.hist_min s KField.low (dh.hist_index - fidx + 1) = some hmin) :
    (emittedType (handleSymbol dh port s) = some SignalType.Extend ↔
        PFloat.le p (PFloat.sub (port.get_last_fill_event s).fill_price
          (PFloat.mul (some (1/2 : ℚ)) fatr)) = true)
    ∧ (PFloat.le p (PFloat.sub (port.get_last_fill_event s).fill_price
          (PFloat.mul (some (1/2 : ℚ)) fatr)) = false →
        ((handleSymbol dh port s = some (some (mkSignal dh s SignalType.Close a
            "Close: go up 2 * atr relative with the min during holding")) ↔
          PFloat.lt (PFloat.add hmin (PFloat.mul (some (2 : ℚ)) fatr)) p = true)
        ∧ (PFloat.lt (PFloat.add hmin (PFloat.mul (some (2 : ℚ)) fatr)) p = false →
            ((handleSymbol dh port s = some (some (mkSignal dh s SignalType.Close a
                "Close: go upper then highest10")) ↔ PFloat.gt p h10 = true)
            ∧ (PFloat.gt p h10 = false → handleSymbol dh port s = some none))))) := by
  have heq := handleSymbol_short_eq dh port s a p h10 l10 h20 l20 fatr hmin fidx
    hpre ha hp hh10 hl10 hh20 hl20 hn1 hn2 hn3 hn4 hpos hlen hdir hfatr hfidx hhold
  cases hc1 : PFloat.le p (PFloat.sub (port.get_last_fill_event s).fill_price
      (PFloat.mul (some (1/2 : ℚ)) fatr)) with
  | true =>
    have hc1' : PFloat.ge (PFloat.sub (port.get_last_fill_event s).fill_price
        (PFloat.mul (some (1/2 : ℚ)) fatr)) p = true := hc1
    simp only [hc1', if_true] at heq
    refine ⟨by simp [heq, emittedType, mkSignal], fun hfalse => by simp at hfalse⟩
  | false =>
    have hc1' : PFloat.ge (PFloat.sub (port.get_last_fill_event s).fill_price
        (PFloat.mul (some (1/2 : ℚ)) fatr)) p = false := hc1
    simp only [hc1', Bool.false_eq_true, if_false] at heq
    constructor
    · cases hc2 : PFloat.lt (PFloat.add hmin (PFloat.mul (some (2 : ℚ)) fatr)) p with
      | true =>
        simp only [hc2, if_true] at heq
        simp [heq, emittedType, mkSignal]
      | false =>
        simp only [hc2, Bool.false_eq_true, if_false] at heq
        cases hc3 : PFloat.lt h10 p with
        | true =>
          simp only [hc3, if_true] at heq
          simp [heq, emittedType, mkSignal]
        | false =>
          simp only [hc3, Bool.false_eq_true, if_false] at heq
          simp [heq, emittedType]
    · intro _
      cases hc2 : PFloat.lt (PFloat.add hmin (PFloat.mul (some (2 : ℚ)) fatr)) p with
      | true =>
        simp only [hc2, if_true] at heq
        exact ⟨⟨fun _ => rfl, fun _ => heq⟩, fun hfalse => by simp at hfalse⟩
      | false =>
        simp only [hc2, Bool.false_eq_true, if_false] at heq
        constructor
        · constructor
          · intro habs
            cases hc3 : PFloat.lt h10 p with
            | true =>
              simp only [hc3, if_true] at heq
              rw [heq] at habs
              simp [mkSignal] at habs
            | false =>
              simp only [hc3, Bool.false_eq_true, if_false] at heq
              rw [heq] at habs
              simp at habs
          · intro hfalse; simp at hfalse
        · intro _
          constructor
          · cases hc3 : PFloat.gt p h10 with
            | true =>
              have hc3' : PFloat.lt h10 p = true := hc3
              simp only [hc3', if_true] at heq
              exact ⟨fun _ => rfl, fun _ => heq⟩
            | false =>
              have hc3' : PFloat.lt h10 p = false := hc3
              simp only [hc3', Bool.false_eq_true, if_false] at heq
              refine ⟨fun habs => ?_, fun hfalse => by simp at hfalse⟩
              rw [heq] at habs
              simp at habs
          · intro hc3
            have hc3' : PFloat.lt h10 p = false := hc3
            simp only [hc3', Bool.false_eq_true, if_false] at heq
            exact heq

/-- C5: for a symbol with an open position, more than four recorded
fills yield no element at all regardless of price or direction, while
at most four fills let the management logic run (the symbol contributes
an element). -/
theorem c5_fill_count_guard {Sym : Type} [DecidableEq Sym]
    (dh : DataHandler Sym) (port : PortfolioView Sym) (s : Sym)
    (a p h10 l10 h20 l20 fatr hmax hmin : PFloat) (fidx : ℤ)
    (hpre : ¬ (s ∈ dh.plate_symbols ∨ s = dh.benchmark))
    (ha : dh.get_curr_bar_value s KField.atr = some a)
    (hp : dh.get_curr_bar_value s KField.close = some p)
    (hh10 : dh.hist_max s KField.high 10 = some h10)
    (hl10 : dh.hist_min s KField.low 10 = some l10)
    (hh20 : dh.hist_max s KField.high 20 = some h20)
    (hl20 : dh.hist_min s KField.low 20 = some l20)
    (hn1 : h10.isnan = false) (hn2 : l10.isnan = false)
    (hn3 : h20.isnan = false) (hn4 : l20.isnan = false)
    (hpos : port.has_position s = true)
    (hfatr : (port.get_first_fill_event s).attr_atr = some fatr)
    (hfidx : (port.get_first_fill_event s).attr_index = some fidx)
    (hhmax : dh.hist_max s KField.high (dh.hist_index - fidx + 1) = some hmax)
    (hhmin : dh.hist_min s KField.low (dh.hist_index - fidx + 1) = some hmin) :
    (port.get_fill_events_len s > 4 → handleSymbol dh port s = none)
    ∧ (port.get_fill_events_len s ≤ 4 → ∃ r, handleSymbol dh port s = some r) := by
  constructor
  · intro hgt
    exact handleSymbol_guard_eq dh port s a p h10 l10 h20 l20 hpre ha hp
      hh10 hl10 hh20 hl20 hn1 hn2 hn3 hn4 hpos hgt
  · intro hle
    cases hdir : (port.get_first_fill_event s).direction with
    | buy =>
      have heq := handleSymbol_long_eq dh port s a p h10 l10 h20 l20 fatr hmax fidx
        hpre ha hp hh10 hl10 hh20 hl20 hn1 hn2 hn3 hn4 hpos hle hdir hfatr hfidx hhmax
      rw [heq]
      split
      · exact ⟨_, rfl⟩
      · split
        · exact ⟨_, rfl⟩
        · split
          · exact ⟨_, rfl⟩
          · exact ⟨_, rfl⟩
    | sell =>
      have heq := handleSymbol_short_eq dh port s a p h10 l10 h20 l20 fatr hmin fidx
        hpre ha hp hh10 hl10 hh20 hl20 hn1 hn2 hn3 hn4 hpos hle hdir hfatr hfidx hhmin
      rw [heq]
      split
      · exact ⟨_, rfl⟩
      · split
        · exact ⟨_, rfl⟩
        · split
          · exact ⟨_, rfl⟩
          · exact ⟨_, rfl⟩

/-- C6: NaN in any of the four rolling extrema makes the symbol emit no
signal (it contributes no element), raises nothing to the caller (the
iteration is a total function whose error branch is caught), and the
remaining symbols of the same cycle are still evaluated. -/
theorem c6_nan_extrema_skip {Sym : Type} [DecidableEq Sym]
    (dh : DataHandler Sym) (port : PortfolioView Sym) (s : Sym)
    (a p h10 l10 h20 l20 : PFloat)
    (ha : dh.get_curr_bar_value s KField.atr = some a)
    (hp : dh.get_curr_bar_value s KField.close = some p)
    (hh10 : dh.hist_max s KField.high 10 = some h10)
    (hl10 : dh.hist_min s KField.low 10 = some l10)
    (hh20 : dh.hist_max s KField.high 20 = some h20)
    (hl20 : dh.hist_min s KField.low 20 = some l20)
    (hnan : h10.isnan = true ∨ l10.isnan = true ∨
      h20.isnan = true ∨ l20.isnan = true) :
    handleSymbol dh port s = none ∧
      ∀ xs ys : List Sym,
        handle dh port (xs ++ s :: ys) = handle dh port xs ++ handle dh port ys :=
  handleSymbol_nan_skip dh port s a p h10 l10 h20 l20 ha hp hh10 hl10 hh20 hl20 hnan

/-- C7 counterexample: the claim says a non-finite current volatility
measure aborts the symbol's evaluation with no signal emitted, but on
symbol "AN" the current ATR is NaN and an `OpenLong` signal is still
emitted (carrying the NaN volatility): the code never validates the
current ATR or price, only the four rolling extrema. -/
theorem c7_nonfinite_counterexample :
    dhW.get_curr_bar_value "AN" KField.atr = some PFloat.nan
    ∧ handleSymbol dhW pfW "AN" = some (some (mkSignal dhW "AN"
        SignalType.OpenLong PFloat.nan "OpenLong: go up than highest20")) :=
  ⟨rfl, rfl⟩

/-- C7 amended: only a NaN among the four rolling extrema aborts the
symbol's evaluation for the cycle (no signal, and the rule continues
with the other symbols); a non-finite current volatility measure is not
validated and does not abort evaluation — a signal can still be emitted
carrying the NaN volatility. -/
theorem c7_nan_validation_amended {Sym : Type} [DecidableEq Sym]
    (dh : DataHandler Sym) (port : PortfolioView Sym) (s : Sym)
    (a p h10 l10 h20 l20 : PFloat)
    (ha : dh.get_curr_bar_value s KField.atr = some a)
    (hp : dh.get_curr_bar_value s KField.close = some p)
    (hh10 : dh.hist_max s KField.high 10 = some h10)
    (hl10 : dh.hist_min s KField.low 10 = some l10)
    (hh20 : dh.hist_max s KField.high 20 = some h20)
    (hl20 : dh.hist_min s KField.low 20 = some l20) :
    ((h10.isnan = true ∨ l10.isnan = true ∨ h20.isnan = true ∨ l20.isnan = true) →
      handleSymbol dh port s = none ∧
        ∀ xs ys : List Sym,
          handle dh port (xs ++ s :: ys) = handle dh port xs ++ handle dh port ys)
    ∧ (h10.isnan = false → l10.isnan = false → h20.isnan = false → l20.isnan = false →
        ¬ (s ∈ dh.plate_symbols ∨ s = dh.benchmark) →
        port.has_position s = false →
        a = PFloat.nan → PFloat.gt p h20 = true →
        handleSymbol dh port s = some (some (mkSignal dh s SignalType.OpenLong
          PFloat.nan "OpenLong: go up than highest20"))) := by
  constructor
  · intro hnan
    exact handleSymbol_nan_skip dh port s a p h10 l10 h20 l20 ha hp
      hh10 hl10 hh20 hl20 hnan
  · intro hn1 hn2 hn3 hn4 hpre hflat hatr hgt
    have heq := handleSymbol_flat_eq dh port s a p h10 l10 h20 l20 hpre ha hp
      hh10 hl10 hh20 hl20 hn1 hn2 hn3 hn4 hflat
    rw [heq, if_pos hgt, hatr]

/-- Shape of every emitted signal: it names the iterated symbol, has
confidence 1, next bar index, the looked-up current ATR, the rule id,
and one of the eight canonical reason strings. -/
theorem handleSymbol_emit_shape {Sym : Type} [DecidableEq Sym]
    (dh : DataHandler Sym) (port : PortfolioView Sym) (s : Sym)
    (sig : Signal Sym)
    (h : handleSymbol dh port s = some (some sig)) :
    sig.symbol = s ∧ sig.confidence = 1 ∧ sig.attr_index = dh.hist_index + 1
    ∧ sig.attr_rule_id = "TurtleStrategy"
    ∧ dh.get_curr_bar_value s KField.atr = some sig.attr_atr
    ∧ sig.attr_reason ∈ reasons := by
  by_cases hpre : s ∈ dh.plate_symbols ∨ s = dh.benchmark
  · rw [handleSymbol, if_pos hpre] at h
    exact absurd h (by simp)
  · rw [handleSymbol, if_neg hpre] at h
    cases hb : handleSymbolBody dh port s with
    | error e =>
      rw [hb] at h
      simp [runBody] at h
    | ok r =>
      rw [hb] at h
      simp only [runBody] at h
      subst h
      simp only [handleSymbolBody] at hb
      repeat' split at hb
      all_goals (try (replace hb := hb.symm))
      all_goals simp_all [mkSignal, reasons]

/-- C8: every emitted signal carries confidence 1.0, bar index equal to
the current bar index plus one, the current volatility measure, the
rule identifier, and one of the eight canonical reason strings, which
are pairwise distinct. -/
theorem c8_signal_contract {Sym : Type} [DecidableEq Sym]
    (dh : DataHandler Sym) (port : PortfolioView Sym) (s : Sym)
    (sig : Signal Sym)
    (h : handleSymbol dh port s = some (some sig)) :
    sig.confidence = 1 ∧ sig.attr_index = dh.hist_index + 1
    ∧ sig.attr_rule_id = "TurtleStrategy"
    ∧ dh.get_curr_bar_value s KField.atr = some sig.attr_atr
    ∧ sig.attr_reason ∈ reasons ∧ reasons.Nodup := by
  obtain ⟨-, h1, h2, h3, h4, h5⟩ := handleSymbol_emit_shape dh port s sig h
  exact ⟨h1, h2, h3, h4, h5, by decide⟩

/-- Per-symbol contribution bound: across one invocation, the number of
non-null signals whose symbol is `s` is at most the number of
occurrences of `s` in the iterated symbol list. -/
theorem handle_count_le {Sym : Type} [DecidableEq Sym]
    (dh : DataHandler Sym) (port : PortfolioView Sym) (s : Sym) :
    ∀ syms : List Sym,
      (((handle dh port syms).filterMap id).filter
        (fun sig => sig.symbol == s)).length ≤ syms.count s := by
  intro syms
  induction syms with
  | nil => simp [handle]
  | cons x rest ih =>
    rw [handle, List.filterMap_cons, List.count_cons]
    rw [handle] at ih
    cases hx : handleSymbol dh port x with
    | none =>
      simp only [hx]
      split <;> omega
    | some o =>
      simp only [hx]
      cases o with
      | none =>
        simp only [List.filterMap_cons, id_eq]
        split <;> omega
      | some sig =>
        have hsym : sig.symbol = x := (handleSymbol_emit_shape dh port x sig hx).1
        simp only [List.filterMap_cons, id_eq, List.filter_cons]
        by_cases hbeq : (sig.symbol == s) = true
        · have hxs : x = s := by rw [hsym] at hbeq; exact beq_iff_eq.mp hbeq
          subst hxs
          simp only [hbeq, if_true, List.length_cons, beq_self_eq_true,
            eq_self_iff_true, ite_true]
          omega
        · have hb' : (sig.symbol == s) = false := by
            revert hbeq; cases (sig.symbol == s) <;> simp
          simp only [hb', Bool.false_eq_true, if_false]
          split <;> omega

/-- C9: in a single invocation over a duplicate-free symbol list, each
symbol contributes at most one non-null signal to the produced
sequence. -/
theorem c9_at_most_one_signal {Sym : Type} [DecidableEq Sym]
    (dh : DataHandler Sym) (port : PortfolioView Sym)
    (syms : List Sym) (hnd : syms.Nodup) (s : Sym) :
    (((handle dh port syms).filterMap id).filter
      (fun sig => sig.symbol == s)).length ≤ 1 :=
  le_trans (handle_count_le dh port s syms)
    (List.nodup_iff_count_le_one.mp hnd s)

/-- C10: the produced sequence distinguishes "evaluated, no signal"
from "skipped": a pre-filtered symbol, a symbol stopped by the
fill-count guard, and a symbol whose lookup fails contribute no element
at all, whereas a flat symbol that reaches its decision with no
actionable condition contributes a literal `None` element. -/
theorem c10_output_distinction {Sym : Type} [DecidableEq Sym]
    (dh : DataHandler Sym) (port : PortfolioView Sym) (s : Sym) :
    (s ∈ dh.plate_symbols ∨ s = dh.benchmark → handleSymbol dh port s = none)
    ∧ (∀ a p h10 l10 h20 l20 : PFloat,
        ¬ (s ∈ dh.plate_symbols ∨ s = dh.benchmark) →
        dh.get_curr_bar_value s KField.atr = some a →
        dh.get_curr_bar_value s KField.close = some p →
        dh.hist_max s KField.high 10 = some h10 →
        dh.hist_min s KField.low 10 = some l10 →
        dh.hist_max s KField.high 20 = some h20 →
        dh.hist_min s KField.low 20 = some l20 →
        h10.isnan = false → l10.isnan = false →
        h20.isnan = false → l20.isnan = false →
        port.has_position s = true → port.get_fill_events_len s > 4 →
        handleSymbol dh port s = none)
    ∧ (¬ (s ∈ dh.plate_symbols ∨ s = dh.benchmark) →
        dh.get_curr_bar_value s KField.atr = none →
        handleSymbol dh port s = none)
    ∧ (∀ a p h10 l10 h20 l20 : PFloat,
        ¬ (s ∈ dh.plate_symbols ∨ s = dh.benchmark) →
        dh.get_curr_bar_value s KField.atr = some a →
        dh.get_curr_bar_value s KField.close = some p →
        dh.hist_max s KField.high 10 = some h10 →
        dh.hist_min s KField.low 10 = some l10 →
        dh.hist_max s KField.high 20 = some h20 →
        dh.hist_min s KField.low 20 = some l20 →
        h10.isnan = false → l10.isnan = false →
        h20.isnan = false → l20.isnan = false →
        port.has_position s = false →
        PFloat.gt p h20 = false → (PFloat.lt p l20 && dh.can_short s) = false →
        handleSymbol dh port s = some none) := by
  refine ⟨?_, ?_, ?_, ?_⟩
  · intro hpre
    exact handleSymbol_pre_eq dh port s hpre
  · intro a p h10 l10 h20 l20 hpre ha hp hh10 hl10 hh20 hl20 hn1 hn2 hn3 hn4 hpos hgt
    exact handleSymbol_guard_eq dh port s a p h10 l10 h20 l20 hpre ha hp
      hh10 hl10 hh20 hl20 hn1 hn2 hn3 hn4 hpos hgt
  · intro hpre hatr
    rw [handleSymbol, if_neg hpre, handleSymbolBody, hatr]
    rfl
  · intro a p h10 l10 h20 l20 hpre ha hp hh10 hl10 hh20 hl20 hn1 hn2 hn3 hn4
      hflat hgt hsh
    have heq := handleSymbol_flat_eq dh port s a p h10 l10 h20 l20 hpre ha hp
      hh10 hl10 hh20 hl20 hn1 hn2 hn3 hn4 hflat
    rw [heq]
    simp [hgt, hsh]

/-- C1 witness: symbol "X" is flat with price 101 above the 20-bar high
100, so `OpenLong` is emitted. -/
theorem c1_flat_entry_witness :
    emittedType (handleSymbol dhW pfW "X") = some SignalType.OpenLong :=
  (c1_flat_entry dhW pfW "X" (some 3) (some 101) (some 110) (some 90)
    (some 100) (some 80) (by decide) rfl rfl rfl rfl rfl rfl
    rfl rfl rfl rfl rfl).1.mpr (by decide)

/-- C2 witness: symbol "LG" holds a long position with last fill 52 and
first-fill ATR 2; price 53 reaches the extend threshold 52 + 0.5 × 2,
so `Extend` is emitted without consulting holding data. -/
theorem c2_long_extend_priority_witness :
    handleSymbol dhW pfW "LG" = some (some (mkSignal dhW "LG"
      SignalType.Extend (some 3)
      "Extend: increase more the 0.5 * atr since last buy")) :=
  (c2_long_extend_priority dhW pfW "LG" (some 3) (some 53) (some 110) (some 90)
    (some 100) (some 80) (some 2) (by decide) rfl rfl rfl rfl rfl rfl
    rfl rfl rfl rfl rfl (by decide) rfl rfl
    (by norm_num [PFloat.ge, PFloat.le, PFloat.add, PFloat.mul,
      show pfW.get_last_fill_event "LG" = lastFillBuy from rfl, lastFillBuy])).1

/-- C3 witness: symbol "L2" holds a long position, extend fails
(threshold 53 vs price 40), and the holding-period maximum 120 minus
2 × 2 exceeds 40, so the stop-loss `Close` is emitted. -/
theorem c3_long_close_order_witness :
    handleSymbol dhW pfW "L2" = some (some (mkSignal dhW "L2"
      SignalType.Close (some 3)
      "Close: go down 2 * atr relative with the max during holding")) :=
  (c3_long_close_order dhW pfW "L2" (some 3) (some 40) (some 110) (some 90)
    (some 100) (some 80) (some 2) (some 120) 86 (by decide) rfl rfl rfl rfl rfl rfl
    rfl rfl rfl rfl rfl (by decide) rfl rfl rfl rfl
    (by norm_num [PFloat.ge, PFloat.le, PFloat.add, PFloat.mul,
      show pfW.get_last_fill_event "L2" = lastFillBuy from rfl, lastFillBuy])).1
    (by norm_num [PFloat.gt, PFloat.lt, PFloat.sub, PFloat.mul])

/-- C4 witness: symbol "S2" holds a short position, extend fails
(price 80 above threshold 51), and the holding-period minimum 70 plus
2 × 2 is below 80, so the adverse-move `Close` is emitted. -/
theorem c4_short_management_witness :
    handleSymbol dhW pfW "S2" = some (some (mkSignal dhW "S2"
      SignalType.Close (some 3)
      "Close: go up 2 * atr relative with the min during holding")) :=
  (((c4_short_management dhW pfW "S2" (some 3) (some 80) (some 110) (some 90)
    (some 100) (some 80) (some 2) (some 70) 86 (by decide) rfl rfl rfl rfl rfl rfl
    rfl rfl rfl rfl rfl (by decide) rfl rfl rfl rfl).2
    (by norm_num [PFloat.le, PFloat.sub, PFloat.mul,
      show pfW.get_last_fill_event "S2" = lastFillSell from rfl,
      lastFillSell])).1).mpr
    (by norm_num [PFloat.lt, PFloat.add, PFloat.mul])

/-- C5 witness: symbol "GU" has 5 recorded fills and contributes no
element; symbol "LG" has 2 fills and its management logic contributes
an element. -/
theorem c5_fill_count_guard_witness :
    handleSymbol dhW pfW "GU" = none ∧ ∃ r, handleSymbol dhW pfW "LG" = some r :=
  ⟨(c5_fill_count_guard dhW pfW "GU" (some 3) (some 95) (some 110) (some 90)
      (some 100) (some 80) (some 2) (some 120) (some 70) 86
      (by decide) rfl rfl rfl rfl rfl rfl rfl rfl rfl rfl rfl
      rfl rfl rfl rfl).1 (by decide),
   (c5_fill_count_guard dhW pfW "LG" (some 3) (some 53) (some 110) (some 90)
      (some 100) (some 80) (some 2) (some 120) (some 70) 86
      (by decide) rfl rfl rfl rfl rfl rfl rfl rfl rfl rfl rfl
      rfl rfl rfl rfl).2 (by decide)⟩

/-- C6 witness: symbol "QN" has NaN rolling extrema: it contributes no
element and the iteration over "X" and "LG" around it is unaffected. -/
theorem c6_nan_extrema_skip_witness :
    handleSymbol dhW pfW "QN" = none ∧
      handle dhW pfW (["X"] ++ "QN" :: ["LG"]) =
        handle dhW pfW ["X"] ++ handle dhW pfW ["LG"] := by
  have h := c6_nan_extrema_skip dhW pfW "QN" (some 3) (some 95)
    PFloat.nan PFloat.nan PFloat.nan PFloat.nan rfl rfl rfl rfl rfl rfl
    (Or.inl rfl)
  exact ⟨h.1, h.2 ["X"] ["LG"]⟩

/-- C7 amended witness: "QN" (NaN extrema) is skipped, while "AN" (NaN
current ATR, flat breakout) still emits an `OpenLong` signal carrying
the NaN volatility. -/
theorem c7_nan_validation_amended_witness :
    handleSymbol dhW pfW "QN" = none ∧
      handleSymbol dhW pfW "AN" = some (some (mkSignal dhW "AN"
        SignalType.OpenLong PFloat.nan "OpenLong: go up than highest20")) :=
  ⟨((c7_nan_validation_amended dhW pfW "QN" (some 3) (some 95)
      PFloat.nan PFloat.nan PFloat.nan PFloat.nan rfl rfl rfl rfl rfl rfl).1
      (Or.inl rfl)).1,
   (c7_nan_validation_amended dhW pfW "AN" PFloat.nan (some 101) (some 110)
      (some 90) (some 100) (some 80) rfl rfl rfl rfl rfl rfl).2
      rfl rfl rfl rfl (by decide) rfl rfl (by decide)⟩

/-- C8 witness: the `OpenLong` signal emitted for "X" satisfies the
full attribute contract. -/
theorem c8_signal_contract_witness :
    (mkSignal dhW "X" SignalType.OpenLong (some 3)
        "OpenLong: go up than highest20").confidence = 1
    ∧ (mkSignal dhW "X" SignalType.OpenLong (some 3)
        "OpenLong: go up than highest20").attr_index = dhW.hist_index + 1
    ∧ (mkSignal dhW "X" SignalType.OpenLong (some 3)
        "OpenLong: go up than highest20").attr_rule_id = "TurtleStrategy"
    ∧ dhW.get_curr_bar_value "X" KField.atr = some (mkSignal dhW "X"
        SignalType.OpenLong (some 3) "OpenLong: go up than highest20").attr_atr
    ∧ (mkSignal dhW "X" SignalType.OpenLong (some 3)
        "OpenLong: go up than highest20").attr_reason ∈ reasons
    ∧ reasons.Nodup :=
  c8_signal_contract dhW pfW "X"
    (mkSignal dhW "X" SignalType.OpenLong (some 3)
      "OpenLong: go up than highest20") rfl

/-- C9 witness: over the duplicate-free universe ["X", "NO"], symbol
"X" contributes at most one non-null signal. -/
theorem c9_at_most_one_signal_witness :
    (((handle dhW pfW ["X", "NO"]).filterMap id).filter
      (fun sig => sig.symbol == "X")).length ≤ 1 :=
  c9_at_most_one_signal dhW pfW ["X", "NO"] (by decide) "X"

/-- C10 witness: "PL" (plate) yields no element, "GU" (guard) yields no
element, "KE" (missing field) yields no element, and "NO" (flat, no
trigger) yields a literal `None` element. -/
theorem c10_output_distinction_witness :
    handleSymbol dhW pfW "PL" = none
    ∧ handleSymbol dhW pfW "GU" = none
    ∧ handleSymbol dhW pfW "KE" = none
    ∧ handleSymbol dhW pfW "NO" = some none :=
  ⟨(c10_output_distinction dhW pfW "PL").1 (by decide),
   (c10_output_distinction dhW pfW "GU").2.1 (some 3) (some 95) (some 110)
     (some 90) (some 100) (some 80) (by decide) rfl rfl rfl rfl rfl rfl
     rfl rfl rfl rfl rfl (by decide),
   (c10_output_distinction dhW pfW "KE").2.2.1 (by decide) rfl,
   (c10_output_distinction dhW pfW "NO").2.2.2 (some 3) (some 95) (some 110)
     (some 90) (some 100) (some 80) (by decide) rfl rfl rfl rfl rfl rfl
     rfl rfl rfl rfl rfl (by decide) (by decide)⟩

end Turtle
